import Mathlib

/-
Shallow embedding of the easymq RPC library (src/library/src/lib.rs and
src/library/src/lapin.rs) together with a model of the postcard wire
format used by its routes. Stateful async code is embedded as explicit
state passing: each operation takes an environment recording the outcome
of every external interaction (broker publish, confirmation, receive,
acknowledge) and returns its result together with the ordered trace of
effects it performed, so ordering claims become statements about traces.
-/

namespace EasyMq

/-- Byte sequences (payloads and wire data) as lists of naturals. -/
abbrev Bytes := List Nat

/-- Model of `lapin::Error`: an opaque transport-layer error token. -/
structure LapinError where
  code : Nat
deriving Repr, DecidableEq

/-- Model of `tokio::sync::oneshot::error::RecvError`. -/
structure RecvError where
  code : Nat
deriving Repr, DecidableEq

/-- Model of `postcard::Error`. -/
structure PostcardError where
  code : Nat
deriving Repr, DecidableEq

/-- Model of `uuid::Error`. -/
structure UuidError where
  code : Nat
deriving Repr, DecidableEq

/-- The `Error` enum of src/library/src/lib.rs, variant for variant. -/
inductive Error where
  | LapinError (e : LapinError)
  | RecvError (e : RecvError)
  | DidNotRecieveReply
  | SerializationError (e : PostcardError)
  | CorrelationIdNotFound
  | CorrelationIdNotUuid (e : UuidError)
deriving Repr, DecidableEq

/-- Correlation ids (`uuid::Uuid`, a 128-bit identifier) modelled as naturals. -/
abbrev Uuid := Nat

/-- Model of `Uuid::to_string`: the canonical string form of the identifier. -/
def uuidToString (u : Uuid) : String := toString u

/-- The fields of `lapin::message::Delivery` that lib.rs reads: the payload
bytes `data` and the message properties `reply_to` and `correlation_id`. -/
structure Delivery where
  data : Bytes
  reply_to : Option String
  correlation_id : Option String
deriving Repr, DecidableEq

/-- Identity of a oneshot sender (`oneshot::Sender<Delivery>`) registered in
the pending-request table; completions are recorded against it. -/
abbrev SlotId := Nat

/-- The pending-request table `DashMap<Uuid, oneshot::Sender<Delivery>>`,
modelled as an association list with (by the freshness of v4 uuids) unique
keys. -/
abbrev PendingMap := List (Uuid × SlotId)

/-- Model of `DashMap::remove`: remove the binding of `key` if present,
returning the removed value and the remaining table. -/
def removeEntry : PendingMap → Uuid → Option SlotId × PendingMap
  | [], _ => (none, [])
  | (k, v) :: rest, key =>
    if k = key then (some v, rest)
    else
      let r := removeEntry rest key
      (r.1, (k, v) :: r.2)

/-! ## Postcard wire format

Model of the `postcard` serializer pair `to_allocvec` / `from_bytes` used by
the routes (lib.rs lines 77 and 104), for the variable-length payloads the
routes carry: a LEB128 varint length prefix followed by the payload bytes. -/

/-- Postcard's LEB128 varint encoding of an unsigned integer: 7 bits per
byte, little-endian, high bit set on every byte but the last. -/
def varintEncode (n : Nat) : List Nat :=
  if n < 128 then [n]
  else (n % 128 + 128) :: varintEncode (n / 128)
termination_by n
decreasing_by exact Nat.div_lt_self (by omega) (by omega)

/-- Postcard's varint decoding: returns the decoded integer and the
remaining bytes, or `none` on truncated input. -/
def varintDecode : List Nat → Option (Nat × List Nat)
  | [] => none
  | b :: rest =>
    if b < 128 then some (b, rest)
    else
      match varintDecode rest with
      | none => none
      | some (n, rest') => some (n * 128 + (b - 128), rest')

/-- Model of `postcard::to_allocvec` on a variable-length payload: varint
length prefix followed by the payload bytes. -/
def to_allocvec (bs : Bytes) : Bytes := varintEncode bs.length ++ bs

/-- Model of `postcard::from_bytes` on a variable-length payload: decode the
varint length, then take that many bytes; trailing bytes are discarded, and
truncated input is an error. -/
def from_bytes (data : Bytes) : Except PostcardError Bytes :=
  match varintDecode data with
  | none => .error ⟨0⟩
  | some (n, rest) =>
    if n ≤ rest.length then .ok (rest.take n) else .error ⟨1⟩

/-! ## RPCHandle::send (lib.rs lines 76-107)

The caller side of the RPC. The environment records the outcome of each
external interaction (the serializer, the fresh v4 uuid, the publish and its
confirmation, the oneshot receive, the deserializer); `send` returns its
result, the updated handle state (whose only mutable part is the shared
pending-request table) and the ordered trace of effects. -/

/-- Effects performed by `RPCHandle::send`, in the order they occur. -/
inductive SendEvent where
  | published (exchange routing : String) (payload : Bytes)
      (reply_to : Option String) (correlation_id : Option String)
      (delivery_mode : Nat)
  | inserted (id : Uuid)
  | awaited (id : Uuid)
deriving Repr, DecidableEq

/-- The fields of `RPCHandle` that `send` reads, plus the shared
pending-request table. -/
structure RPCHandleState where
  exchange_key : String
  routing_key : String
  routing_response_key : String
  map : PendingMap
deriving Repr, DecidableEq

/-- Outcomes of the external interactions a single `send` call performs:
`to_allocvec` on the input, `Uuid::new_v4`, the fresh oneshot channel, the
`basic_publish` together with its awaited confirmation, `rx.await`, and
`from_bytes` on the reply payload. -/
structure SendEnv (Input Output : Type) where
  serInput : Input → Except PostcardError Bytes
  freshId : Uuid
  freshSlot : SlotId
  publishOutcome : Except LapinError Unit
  recvOutcome : Except RecvError Delivery
  deserOutput : Bytes → Except PostcardError Output

/-- `RPCHandle::send`: serialize, generate the correlation id, publish with
reply_to / correlation_id / delivery_mode 2 and await the confirmation,
insert the oneshot sender into the table, await the oneshot receiver,
deserialize the completed delivery. -/
def send {Input Output : Type} (env : SendEnv Input Output)
    (h : RPCHandleState) (input : Input) :
    Except Error Output × RPCHandleState × List SendEvent :=
  match env.serInput input with
  | .error e => (.error (.SerializationError e), h, [])
  | .ok payload =>
    let request_id := env.freshId
    let pubEv := SendEvent.published h.exchange_key h.routing_key payload
      (some h.routing_response_key) (some (uuidToString request_id)) 2
    match env.publishOutcome with
    | .error e => (.error (.LapinError e), h, [pubEv])
    | .ok _ =>
      let h' := { h with map := h.map ++ [(request_id, env.freshSlot)] }
      let trace := [pubEv, SendEvent.inserted request_id,
        SendEvent.awaited request_id]
      match env.recvOutcome with
      | .error e => (.error (.RecvError e), h', trace)
      | .ok delivery =>
        match env.deserOutput delivery.data with
        | .error e => (.error (.SerializationError e), h', trace)
        | .ok return_value => (.ok return_value, h', trace)

/-! ## RPCHandleController::run (lib.rs lines 167-185), the ReplyRouter

The reply subscription is a list of `Result<Delivery, lapin::Error>` items;
exhaustion of the list is closure of the subscription. `Uuid::from_str` is a
parameter, the uuid crate being external. The loop threads the
pending-request table and records each completion `tx.send(delivery)`. -/

/-- A completion performed by the router: `tx.send(delivery)` on the sender
removed from the table. -/
structure Completion where
  slot : SlotId
  delivery : Delivery
deriving Repr, DecidableEq

/-- `RPCHandleController::run`: for each delivery, propagate transport
errors, require a correlation id (`CorrelationIdNotFound`), parse it
(`CorrelationIdNotUuid`), then remove the matching table entry (if any) and
complete it. Each `?` returns from `run`, ending the loop. -/
def routerRun (parseUuid : String → Except UuidError Uuid)
    (map : PendingMap) :
    List (Except LapinError Delivery) →
    Except Error Unit × PendingMap × List Completion
  | [] => (.ok (), map, [])
  | msg :: rest =>
    match msg with
    | .error e => (.error (.LapinError e), map, [])
    | .ok delivery =>
      match delivery.correlation_id with
      | none => (.error .CorrelationIdNotFound, map, [])
      | some cid =>
        match parseUuid cid with
        | .error e => (.error (.CorrelationIdNotUuid e), map, [])
        | .ok request_id =>
          match removeEntry map request_id with
          | (none, map') => routerRun parseUuid map' rest
          | (some tx, map') =>
            let r := routerRun parseUuid map' rest
            (r.1, r.2.1, ⟨tx, delivery⟩ :: r.2.2)

/-! ## RPCHandler (lib.rs lines 242-289), the ServerHandler

`handle_request` processes one delivery; `run` drains the request
subscription, a list of `Result<Delivery, lapin::Error>` items, calling
`handle_request` to completion on each and propagating every error with
`?`. The user handler's awaited future is a function `Input → Output`. -/

/-- Effects performed by `RPCHandler::handle_request`, in order: the
`ack`, the awaited user handler invocation, and the reply publish. -/
inductive HandlerEvent where
  | acked (d : Delivery)
  | handled (d : Delivery)
  | replied (exchange routing : String) (payload : Bytes)
      (correlation_id : String) (delivery_mode : Nat)
deriving Repr, DecidableEq

/-- Outcomes of the external interactions of the server side: the per-message
`ack`, `from_bytes` on the request payload, the user handler `f`, postcard
`to_allocvec` on its result, and the reply `basic_publish` with its awaited
confirmation. -/
structure HandlerEnv (Input Output : Type) where
  ack : Delivery → Except LapinError Unit
  deserInput : Bytes → Except PostcardError Input
  f : Input → Output
  serOutput : Output → Except PostcardError Bytes
  publishOutcome : String → String → Bytes → String → Except LapinError Unit

/-- `RPCHandler::handle_request`: ack the incoming delivery, deserialize
it, invoke and await the handler, serialize the result, read `reply_to`
(`DidNotRecieveReply` if absent), publish the reply with the incoming
message's `correlation_id` (`CorrelationIdNotFound` if absent) and
`delivery_mode` 2, awaiting the confirmation. -/
def handle_request {Input Output : Type} (env : HandlerEnv Input Output)
    (exchange_key : String) (incoming : Delivery) :
    Except Error Unit × List HandlerEvent :=
  match env.ack incoming with
  | .error e => (.error (.LapinError e), [])
  | .ok _ =>
    match env.deserInput incoming.data with
    | .error e => (.error (.SerializationError e), [.acked incoming])
    | .ok input_data =>
      let result_value := env.f input_data
      match env.serOutput result_value with
      | .error e =>
        (.error (.SerializationError e), [.acked incoming, .handled incoming])
      | .ok payload =>
        match incoming.reply_to with
        | none =>
          (.error .DidNotRecieveReply, [.acked incoming, .handled incoming])
        | some routing_key =>
          match incoming.correlation_id with
          | none =>
            (.error .CorrelationIdNotFound,
              [.acked incoming, .handled incoming])
          | some cid =>
            let repEv := HandlerEvent.replied exchange_key routing_key
              payload cid 2
            match env.publishOutcome exchange_key routing_key payload cid with
            | .error e =>
              (.error (.LapinError e),
                [.acked incoming, .handled incoming, repEv])
            | .ok _ =>
              (.ok (), [.acked incoming, .handled incoming, repEv])

/-- `RPCHandler::run`: `while let Some(delivery) = listener.next().await`
with `self.handle_request(delivery?).await?` — each delivery is fully
processed, reply publish included, before the next is read, and every
error ends the loop. -/
def handlerRun {Input Output : Type} (env : HandlerEnv Input Output)
    (exchange_key : String) :
    List (Except LapinError Delivery) → Except Error Unit × List HandlerEvent
  | [] => (.ok (), [])
  | msg :: rest =>
    match msg with
    | .error e => (.error (.LapinError e), [])
    | .ok delivery =>
      match handle_request env exchange_key delivery with
      | (.error e, evs) => (.error e, evs)
      | (.ok _, evs) =>
        let r := handlerRun env exchange_key rest
        (r.1, evs ++ r.2)

/-! ## LapinConsumer::to_stream (lapin.rs lines 134-175)

The inner `self.consumer.next().await` is a source of items: `None`,
`Some(Err(e))`, or `Some(Ok(delivery))` — a delivery here carries its
payload and the outcome of its later `ack`. The `async_stream::stream!`
block is an unconditional `loop` each of whose branches yields exactly one
item and then `continue`s, so the generated stream has an element for every
index and is fully described by the per-iteration function below. -/

/-- Decidable equality for `Except`, used to evaluate the models on
concrete inputs. -/
instance exceptDecEq {ε α : Type} [DecidableEq ε] [DecidableEq α] :
    DecidableEq (Except ε α) := fun a b =>
  match a, b with
  | .error e, .error f =>
    if h : e = f then .isTrue (by rw [h])
    else .isFalse (by intro hc; exact h (by injection hc))
  | .error _, .ok _ => .isFalse (by intro hc; exact Except.noConfusion hc)
  | .ok _, .error _ => .isFalse (by intro hc; exact Except.noConfusion hc)
  | .ok x, .ok y =>
    if h : x = y then .isTrue (by rw [h])
    else .isFalse (by intro hc; exact h (by injection hc))

/-- An item produced by the inner lapin consumer's `next().await`. -/
inductive InnerItem where
  | noMessage
  | errItem (e : LapinError)
  | item (data : Bytes) (ackOutcome : Except LapinError Unit)
deriving Repr, DecidableEq

/-- The `AmqpConsumerError<CError, DError>` enum of the crate, as used in
lapin.rs: a transport-level consumer error or a deserialization error. -/
inductive AmqpConsumerError (CError DError : Type) where
  | ConsumerError (e : CError)
  | DeserializationError (e : DError)
deriving Repr, DecidableEq

/-- Broker interactions of one stream iteration, in order. -/
inductive ConsumerEffect where
  | receivedItem
  | ackedItem (data : Bytes)
deriving Repr, DecidableEq

/-- One iteration of the `to_stream` loop body: the yielded stream element
together with the ordered broker effects of the iteration. Receiving
nothing yields `none`; a receive error yields `ConsumerError`; otherwise
the delivery is acked (an ack failure yields `ConsumerError`), then
deserialized (a failure yields `DeserializationError`), then yielded. -/
def streamIter {T DError : Type} (deserializer : Bytes → Except DError T) :
    InnerItem →
    Option (Except (AmqpConsumerError LapinError DError) T) × List ConsumerEffect
  | .noMessage => (none, [.receivedItem])
  | .errItem e => (some (.error (.ConsumerError e)), [.receivedItem])
  | .item data ackOutcome =>
    match ackOutcome with
    | .error e =>
      (some (.error (.ConsumerError e)), [.receivedItem, .ackedItem data])
    | .ok _ =>
      match deserializer data with
      | .error e =>
        (some (.error (.DeserializationError e)),
          [.receivedItem, .ackedItem data])
      | .ok value => (some (.ok value), [.receivedItem, .ackedItem data])

/-- The stream produced by `to_stream` over an inner source: the `n`-th
cell is `none` if the stream has ended before index `n`, and `some cell`
otherwise. The loop body has no `break` or `return` and every branch ends
in a yield followed by `continue`, so iteration `n` always exists and
processes exactly the `n`-th inner item. -/
def toStreamNth {T DError : Type} (deserializer : Bytes → Except DError T)
    (source : Nat → InnerItem) (n : Nat) :
    Option (Option (Except (AmqpConsumerError LapinError DError) T) ×
      List ConsumerEffect) :=
  some (streamIter deserializer (source n))

/-! ## LapinProducer::publish (lapin.rs lines 74-90)

The serializer of a `LapinProducer` is an infallible `Fn(T) -> Vec<u8>`.
`publish` serializes, calls `basic_publish` on the queue information's
exchange and routing key with `delivery_mode` 2 (persistent), awaits the
send and then awaits the returned confirmation, and only then returns
`Ok(())`; either await's error is returned as the `lapin::Error`. -/

/-- The fields of `AmqpQueueInformation` that `publish` reads. -/
structure AmqpQueueInformation where
  queue_name : String
  exchange : String
  routing_key : String
deriving Repr, DecidableEq

/-- Transport interactions of `publish`, in order: handing the message to
the transport, then the awaited publisher confirmation. -/
inductive ProducerEvent where
  | sent (exchange routing : String) (payload : Bytes) (delivery_mode : Nat)
  | confirmed
deriving Repr, DecidableEq

/-- `LapinProducer::publish`: serialize with the route's infallible
serializer, send durably (`delivery_mode` 2) to the queue information's
exchange and routing key, await the confirmation, return `Ok(())`. The
outcomes of the two awaits of `basic_publish(..).await?.await?` are the
`sendOutcome` and `confirmOutcome` parameters. -/
def lapinPublish {T : Type} (info : AmqpQueueInformation)
    (serializer : T → Bytes) (sendOutcome : Except LapinError Unit)
    (confirmOutcome : Except LapinError Unit) (value : T) :
    Except LapinError Unit × List ProducerEvent :=
  let payload := serializer value
  let sentEv := ProducerEvent.sent info.exchange info.routing_key payload 2
  match sendOutcome with
  | .error e => (.error e, [sentEv])
  | .ok _ =>
    match confirmOutcome with
    | .error e => (.error e, [sentEv])
    | .ok _ => (.ok (), [sentEv, .confirmed])

/-! ## Concrete instances

Small concrete environments used to evaluate the models on explicit
inputs. -/

/-- A concrete uuid parser: accepts exactly the identifier "5". -/
def parseC : String → Except UuidError Uuid :=
  fun s => if s = "5" then .ok 5 else .error ⟨0⟩

/-- A concrete handle state with an empty pending-request table. -/
def hStateC : RPCHandleState := ⟨"ex", "rq", "rr", []⟩

/-- A send environment in which every external interaction succeeds. -/
def envSendOk : SendEnv Nat Nat :=
  ⟨fun _ => .ok [9], 7, 0, .ok (), .ok ⟨[5], none, none⟩, fun _ => .ok 3⟩

/-- A send environment whose serializer fails. -/
def envSendSerFail : SendEnv Nat Nat :=
  ⟨fun _ => .error ⟨4⟩, 7, 0, .ok (), .ok ⟨[5], none, none⟩, fun _ => .ok 3⟩

/-- A send environment whose publish (or its confirmation) fails. -/
def envSendPubFail : SendEnv Nat Nat :=
  ⟨fun _ => .ok [9], 7, 0, .error ⟨8⟩, .ok ⟨[5], none, none⟩, fun _ => .ok 3⟩

/-- A handler environment in which every external interaction succeeds:
the request payload decodes to its length, the user handler adds one, the
reply payload is that number as a single byte. -/
def envHandlerOk : HandlerEnv Nat Nat :=
  ⟨fun _ => .ok (), fun bs => .ok bs.length, fun n => n + 1,
    fun n => .ok [n], fun _ _ _ _ => .ok ()⟩

/-- A handler environment whose request deserializer fails. -/
def envHandlerDeserFail : HandlerEnv Nat Nat :=
  ⟨fun _ => .ok (), fun _ => .error ⟨2⟩, fun n => n,
    fun n => .ok [n], fun _ _ _ _ => .ok ()⟩

/-- A concrete consumer deserializer that accepts every payload. -/
def deserOkC : Bytes → Except PostcardError Nat := fun bs => .ok bs.length

/-- A concrete consumer deserializer that rejects every payload. -/
def deserFailC : Bytes → Except PostcardError Nat := fun _ => .error ⟨1⟩

/-- A concrete inner source delivering the same well-acked payload
forever. -/
def sourceItemC : Nat → InnerItem := fun _ => .item [3] (.ok ())

/-- A concrete inner source on which the subscription is closed from the
start: `next()` yields nothing at every index. -/
def sourceClosedC : Nat → InnerItem := fun _ => .noMessage

/-- A concrete inner source whose every receive fails. -/
def sourceErrC : Nat → InnerItem := fun _ => .errItem ⟨6⟩

/-- Concrete queue information for the producer. -/
def infoC : AmqpQueueInformation := ⟨"q", "ex", "rk"⟩

/-- A concrete infallible producer serializer. -/
def serC : Nat → Bytes := fun n => [n]

/-! ## Helper lemmas -/

theorem removeEntry_not_mem (m : PendingMap) (key : Uuid)
    (h : ∀ p ∈ m, p.1 ≠ key) : removeEntry m key = (none, m) := by
  induction m with
  | nil => rfl
  | cons p rest ih =>
    obtain ⟨k, v⟩ := p
    have hk : k ≠ key := h (k, v) (List.mem_cons_self _ _)
    simp only [removeEntry, if_neg hk]
    rw [ih (fun q hq => h q (List.mem_cons_of_mem _ hq))]

theorem removeEntry_nodup_removed (m : PendingMap) (key : Uuid) (tx : SlotId)
    (m' : PendingMap) (hnd : (m.map Prod.fst).Nodup)
    (h : removeEntry m key = (some tx, m')) : ∀ p ∈ m', p.1 ≠ key := by
  induction m generalizing m' with
  | nil => simp [removeEntry] at h
  | cons p rest ih =>
    obtain ⟨k, v⟩ := p
    simp only [List.map_cons, List.nodup_cons] at hnd
    by_cases hk : k = key
    · simp only [removeEntry, if_pos hk, Prod.mk.injEq] at h
      intro q hq hqk
      rw [← h.2] at hq
      have hmem : q.1 ∈ List.map Prod.fst rest := List.mem_map_of_mem Prod.fst hq
      rw [hqk, ← hk] at hmem
      exact hnd.1 hmem
    · rcases hres : removeEntry rest key with ⟨r1, r2⟩
      simp only [removeEntry, if_neg hk, hres, Prod.mk.injEq] at h
      intro q hq
      rw [← h.2] at hq
      rcases List.mem_cons.mp hq with hq | hq
      · rw [hq]; exact hk
      · exact ih r2 hnd.2 (by rw [hres, h.1]) q hq

theorem varintDecode_encode (n : Nat) :
    ∀ rest, varintDecode (varintEncode n ++ rest) = some (n, rest) := by
  induction n using Nat.strong_induction_on with
  | _ n ih =>
    intro rest
    rw [varintEncode]
    by_cases h : n < 128
    · simp [h, varintDecode]
    · rw [if_neg h]
      simp only [List.cons_append, varintDecode]
      rw [if_neg (by omega)]
      simp only [List.append_eq]
      rw [ih (n / 128) (Nat.div_lt_self (by omega) (by omega)) rest]
      have heq : n / 128 * 128 + (n % 128 + 128 - 128) = n := by omega
      show some (n / 128 * 128 + (n % 128 + 128 - 128), rest) = some (n, rest)
      rw [heq]

/-! ## Claim theorems -/

/-- C9: for every payload value, deserializing its serialization yields the
value back: `from_bytes (to_allocvec P) = P` for the postcard
serializer/deserializer pair used by the routes. -/
theorem postcard_roundtrip (bs : Bytes) :
    from_bytes (to_allocvec bs) = .ok bs := by
  unfold from_bytes to_allocvec
  rw [varintDecode_encode]
  simp

/-- C9 witness: the round trip evaluated on a concrete payload. -/
theorem postcard_roundtrip_witness :
    from_bytes (to_allocvec [1, 2, 3]) = .ok [1, 2, 3] :=
  postcard_roundtrip [1, 2, 3]

/-- C1: `RPCHandle::send` first serializes the request, returning the
serialization failure as `Error.SerializationError` with nothing published;
otherwise it publishes the serialized payload to the request destination
with reply_to = the reply destination, correlation_id = the string form of
the freshly generated id and delivery_mode 2 (durable), then inserts the
completion slot for that id into the shared pending-request table, then
awaits the slot, and finally deserializes the completed payload, a failure
surfacing as the deserialization error (which lib.rs folds into the
`SerializationError` variant via `From<postcard::Error>`) — in exactly this
order. -/
theorem send_step_order {Input Output : Type} (env : SendEnv Input Output)
    (h : RPCHandleState) (input : Input) :
    (∀ e, env.serInput input = .error e →
      send env h input = (.error (.SerializationError e), h, []))
    ∧ (∀ payload, env.serInput input = .ok payload →
        env.publishOutcome = .ok () →
        ∀ d, env.recvOutcome = .ok d →
        send env h input =
          (Except.mapError Error.SerializationError (env.deserOutput d.data),
            { h with map := h.map ++ [(env.freshId, env.freshSlot)] },
            [SendEvent.published h.exchange_key h.routing_key payload
                (some h.routing_response_key)
                (some (uuidToString env.freshId)) 2,
              SendEvent.inserted env.freshId,
              SendEvent.awaited env.freshId])) := by
  constructor
  · intro e he
    unfold send
    rw [he]
  · intro payload hser hpub d hrecv
    unfold send
    rw [hser, hpub, hrecv]
    cases hdes : env.deserOutput d.data with
    | error e => simp [Except.mapError, hdes]
    | ok v => simp [Except.mapError, hdes]

/-- C1 witness: the successful path of `send` evaluated in a concrete
environment. -/
theorem send_step_order_witness :
    send envSendOk hStateC 0 =
      (Except.mapError Error.SerializationError (envSendOk.deserOutput [5]),
        { hStateC with map := hStateC.map ++ [(envSendOk.freshId, envSendOk.freshSlot)] },
        [SendEvent.published hStateC.exchange_key hStateC.routing_key [9]
            (some hStateC.routing_response_key)
            (some (uuidToString envSendOk.freshId)) 2,
          SendEvent.inserted envSendOk.freshId,
          SendEvent.awaited envSendOk.freshId]) :=
  (send_step_order envSendOk hStateC 0).2 [9] rfl rfl ⟨[5], none, none⟩ rfl

/-- C10: if `send` fails before suspension — the serializer fails, or the
publish together with its confirmation fails — it returns that error, the
pending-request table is unchanged, and no completion slot is inserted for
the generated correlation id. -/
theorem send_failure_leaves_table_unchanged {Input Output : Type}
    (env : SendEnv Input Output) (h : RPCHandleState) (input : Input) :
    (∀ e, env.serInput input = .error e →
      send env h input = (.error (.SerializationError e), h, []))
    ∧ (∀ payload e, env.serInput input = .ok payload →
        env.publishOutcome = .error e →
        send env h input = (.error (.LapinError e), h,
          [SendEvent.published h.exchange_key h.routing_key payload
            (some h.routing_response_key)
            (some (uuidToString env.freshId)) 2])) := by
  constructor
  · intro e he
    unfold send
    rw [he]
  · intro payload e hser hpub
    unfold send
    rw [hser, hpub]

/-- C10 witness: a failed serialization and a failed publish, each leaving
the table of the concrete handle state unchanged. -/
theorem send_failure_leaves_table_unchanged_witness :
    send envSendSerFail hStateC 0 =
      (.error (.SerializationError ⟨4⟩), hStateC, [])
    ∧ send envSendPubFail hStateC 0 =
      (.error (.LapinError ⟨8⟩), hStateC,
        [SendEvent.published hStateC.exchange_key hStateC.routing_key [9]
          (some hStateC.routing_response_key)
          (some (uuidToString envSendPubFail.freshId)) 2]) :=
  ⟨(send_failure_leaves_table_unchanged envSendSerFail hStateC 0).1 ⟨4⟩ rfl,
    (send_failure_leaves_table_unchanged envSendPubFail hStateC 0).2 [9] ⟨8⟩ rfl rfl⟩

/-- C2 counterexample: with one entry pending for id 5, a first message
with no correlation id followed by a well-formed reply for id 5. The claim
predicts the loop continues past the faulty message and completes the
pending entry; instead `run` returns `CorrelationIdNotFound`, the entry is
still pending and no completion is performed. -/
theorem router_continue_counterexample :
    routerRun parseC [(5, 0)]
        [.ok ⟨[], none, none⟩, .ok ⟨[7], none, some "5"⟩]
      = (.error .CorrelationIdNotFound, [(5, 0)], [])
    ∧ ¬ (routerRun parseC [(5, 0)]
          [.ok ⟨[], none, none⟩, .ok ⟨[7], none, some "5"⟩]).2.2
        = [⟨0, ⟨[7], none, some "5"⟩⟩] := by
  constructor
  · rfl
  · intro hc
    simp [routerRun] at hc

/-- C2 amended: a message whose correlation id is absent (respectively not
a well-formed identifier) makes `RPCHandleController::run` return
`CorrelationIdNotFound` (respectively `CorrelationIdNotUuid`), terminating
the loop with the table unchanged and no completion performed; subsequent
messages are not processed. -/
theorem router_correlation_error_fatal
    (p : String → Except UuidError Uuid) (map : PendingMap)
    (rest : List (Except LapinError Delivery)) (d : Delivery) :
    (d.correlation_id = none →
      routerRun p map (.ok d :: rest) = (.error .CorrelationIdNotFound, map, []))
    ∧ (∀ cid e, d.correlation_id = some cid → p cid = .error e →
      routerRun p map (.ok d :: rest) =
        (.error (.CorrelationIdNotUuid e), map, [])) := by
  constructor
  · intro hnone
    simp only [routerRun, hnone]
  · intro cid e hcid hp
    simp only [routerRun, hcid, hp]

/-- C2 witness: the two fatal correlation-id failures evaluated on concrete
messages. -/
theorem router_correlation_error_fatal_witness :
    routerRun parseC [(5, 0)] [.ok ⟨[], none, none⟩]
      = (.error .CorrelationIdNotFound, [(5, 0)], [])
    ∧ routerRun parseC [(5, 0)] [.ok ⟨[], none, some "x"⟩]
      = (.error (.CorrelationIdNotUuid ⟨0⟩), [(5, 0)], []) :=
  ⟨(router_correlation_error_fatal parseC [(5, 0)] [] ⟨[], none, none⟩).1 rfl,
    (router_correlation_error_fatal parseC [(5, 0)] [] ⟨[], none, some "x"⟩).2
      "x" ⟨0⟩ rfl (by decide)⟩

/-- C3: a reply whose well-formed correlation id has no pending entry is
discarded silently — the loop continues exactly as if the message had not
arrived, with no table change, no completion and no error; a reply that
does match is completed after its entry is removed, and (the v4 ids in the
table being distinct) the resulting table has no entry for that id, so a
second reply with the same id finds nothing. -/
theorem router_orphan_and_single_completion
    (p : String → Except UuidError Uuid) (map : PendingMap)
    (rest : List (Except LapinError Delivery)) (d : Delivery)
    (cid : String) (id : Uuid)
    (h1 : d.correlation_id = some cid) (h2 : p cid = .ok id) :
    ((∀ q ∈ map, q.1 ≠ id) →
      routerRun p map (.ok d :: rest) = routerRun p map rest)
    ∧ (∀ tx map', (map.map Prod.fst).Nodup →
        removeEntry map id = (some tx, map') →
        routerRun p map (.ok d :: rest) =
          ((routerRun p map' rest).1, (routerRun p map' rest).2.1,
            ⟨tx, d⟩ :: (routerRun p map' rest).2.2)
        ∧ ∀ q ∈ map', q.1 ≠ id) := by
  constructor
  · intro habs
    simp only [routerRun, h1, h2, removeEntry_not_mem map id habs]
  · intro tx map' hnd hrm
    constructor
    · simp only [routerRun, h1, h2, hrm]
    · exact removeEntry_nodup_removed map id tx map' hnd hrm

/-- C3 witness: an orphan reply for id 5 against a table holding only id 1
is a no-op, and a matched reply for id 5 against a table holding exactly
id 5 completes it once, leaving no entry for id 5. -/
theorem router_orphan_and_single_completion_witness :
    routerRun parseC [(1, 10)] [.ok ⟨[7], none, some "5"⟩]
      = routerRun parseC [(1, 10)] []
    ∧ (routerRun parseC [(5, 0)] [.ok ⟨[7], none, some "5"⟩]
        = ((routerRun parseC [] []).1, (routerRun parseC [] []).2.1,
            ⟨0, ⟨[7], none, some "5"⟩⟩ :: (routerRun parseC [] []).2.2)
      ∧ ∀ q ∈ ([] : PendingMap), q.1 ≠ 5) :=
  ⟨(router_orphan_and_single_completion parseC [(1, 10)] [] ⟨[7], none, some "5"⟩
      "5" 5 rfl (by decide)).1 (by decide),
    (router_orphan_and_single_completion parseC [(5, 0)] [] ⟨[7], none, some "5"⟩
      "5" 5 rfl (by decide)).2 0 [] (by decide) (by decide)⟩

/-- C4: per request the server acknowledges the raw message first, then
deserializes it, then invokes and awaits the user handler on the decoded
input, then serializes its result and publishes it to the destination
carried in the original message's `reply_to`, tagged with the original
`correlation_id` and delivery_mode 2 — in that order; and `run` is strictly
sequential: a request's full trace, reply publish included, precedes every
event of the remaining messages. -/
theorem handler_order_and_sequential {Input Output : Type}
    (env : HandlerEnv Input Output) (ek : String) (d : Delivery)
    (input : Input) (payload : Bytes) (rk cid : String)
    (hack : env.ack d = .ok ())
    (hdes : env.deserInput d.data = .ok input)
    (hser : env.serOutput (env.f input) = .ok payload)
    (hrt : d.reply_to = some rk) (hcid : d.correlation_id = some cid)
    (hpub : env.publishOutcome ek rk payload cid = .ok ()) :
    handle_request env ek d =
      (.ok (), [.acked d, .handled d, .replied ek rk payload cid 2])
    ∧ ∀ rest, handlerRun env ek (.ok d :: rest) =
        ((handlerRun env ek rest).1,
          [HandlerEvent.acked d, .handled d, .replied ek rk payload cid 2]
            ++ (handlerRun env ek rest).2) := by
  have hreq : handle_request env ek d =
      (.ok (), [.acked d, .handled d, .replied ek rk payload cid 2]) := by
    simp only [handle_request, hack, hdes, hser, hrt, hcid, hpub]
  refine ⟨hreq, fun rest => ?_⟩
  simp only [handlerRun, hreq]

/-- C4 witness: a concrete request fully processed, then run over that
request followed by one more, its trace prefixed by the first request's
full trace. -/
theorem handler_order_and_sequential_witness :
    handle_request envHandlerOk "ex" ⟨[9, 9], some "rr", some "c"⟩
      = (.ok (), [.acked ⟨[9, 9], some "rr", some "c"⟩,
          .handled ⟨[9, 9], some "rr", some "c"⟩,
          .replied "ex" "rr" [3] "c" 2])
    ∧ handlerRun envHandlerOk "ex"
        [.ok ⟨[9, 9], some "rr", some "c"⟩, .ok ⟨[], some "rr", some "c"⟩]
      = ((handlerRun envHandlerOk "ex" [.ok ⟨[], some "rr", some "c"⟩]).1,
          [HandlerEvent.acked ⟨[9, 9], some "rr", some "c"⟩,
            .handled ⟨[9, 9], some "rr", some "c"⟩,
            .replied "ex" "rr" [3] "c" 2]
          ++ (handlerRun envHandlerOk "ex" [.ok ⟨[], some "rr", some "c"⟩]).2) :=
  ⟨(handler_order_and_sequential envHandlerOk "ex" ⟨[9, 9], some "rr", some "c"⟩
      2 [3] "rr" "c" rfl rfl rfl rfl rfl rfl).1,
    (handler_order_and_sequential envHandlerOk "ex" ⟨[9, 9], some "rr", some "c"⟩
      2 [3] "rr" "c" rfl rfl rfl rfl rfl rfl).2 [.ok ⟨[], some "rr", some "c"⟩]⟩

/-- C8: a deserialization failure of an incoming request — and in general
any error of `handle_request` — is fatal to the whole `run` loop: `run`
returns that error with only the failing request's partial trace, so the
remaining queued requests are never processed. -/
theorem handler_run_error_fatal {Input Output : Type}
    (env : HandlerEnv Input Output) (ek : String) (d : Delivery)
    (rest : List (Except LapinError Delivery)) :
    (∀ pe, env.ack d = .ok () → env.deserInput d.data = .error pe →
      handlerRun env ek (.ok d :: rest)
        = (.error (.SerializationError pe), [.acked d]))
    ∧ (∀ e evs, handle_request env ek d = (.error e, evs) →
      handlerRun env ek (.ok d :: rest) = (.error e, evs)) := by
  have hgen : ∀ e evs, handle_request env ek d = (.error e, evs) →
      handlerRun env ek (.ok d :: rest) = (.error e, evs) := by
    intro e evs hreq
    simp only [handlerRun, hreq]
  refine ⟨fun pe hack hdes => ?_, hgen⟩
  exact hgen (.SerializationError pe) [.acked d]
    (by simp only [handle_request, hack, hdes])

/-- C8 witness: a request whose payload fails to deserialize halts run;
the following request is never processed. -/
theorem handler_run_error_fatal_witness :
    handlerRun envHandlerDeserFail "ex"
        [.ok ⟨[9], some "rr", some "c"⟩, .ok ⟨[], some "rr", some "c"⟩]
      = (.error (.SerializationError ⟨2⟩), [.acked ⟨[9], some "rr", some "c"⟩]) :=
  (handler_run_error_fatal envHandlerDeserFail "ex" ⟨[9], some "rr", some "c"⟩
    [.ok ⟨[], some "rr", some "c"⟩]).1 ⟨2⟩ rfl rfl

/-- C5: for a delivered element the stream's steps occur in the order
receive, acknowledge, deserialize, yield `Some(Ok(value))`; when
deserialization fails, that one iteration yields exactly one
`Some(Err(DeserializationError))`, the acknowledgement having already been
performed, and the stream still has a next element. -/
theorem consumer_stream_element_order {T DError : Type}
    (deserializer : Bytes → Except DError T) (source : Nat → InnerItem)
    (n : Nat) (data : Bytes)
    (hsrc : source n = .item data (.ok ())) :
    (∀ v, deserializer data = .ok v →
      toStreamNth deserializer source n
        = some (some (.ok v), [.receivedItem, .ackedItem data]))
    ∧ (∀ e, deserializer data = .error e →
      toStreamNth deserializer source n
        = some (some (.error (.DeserializationError e)),
            [.receivedItem, .ackedItem data]))
    ∧ (toStreamNth deserializer source (n + 1)).isSome := by
  refine ⟨fun v hv => ?_, fun e he => ?_, rfl⟩
  · simp only [toStreamNth, hsrc, streamIter, hv]
  · simp only [toStreamNth, hsrc, streamIter, he]

/-- C5 witness: a successfully deserialized element and a rejected one,
both acknowledged between the receive and the deserialization, the stream
continuing in both cases. -/
theorem consumer_stream_element_order_witness :
    toStreamNth deserOkC sourceItemC 0
      = some (some (.ok 1), [.receivedItem, .ackedItem [3]])
    ∧ toStreamNth deserFailC sourceItemC 0
      = some (some (.error (.DeserializationError ⟨1⟩)),
          [.receivedItem, .ackedItem [3]])
    ∧ (toStreamNth deserFailC sourceItemC 1).isSome :=
  ⟨(consumer_stream_element_order deserOkC sourceItemC 0 [3] rfl).1 1 rfl,
    (consumer_stream_element_order deserFailC sourceItemC 0 [3] rfl).2.1 ⟨1⟩ rfl,
    (consumer_stream_element_order deserFailC sourceItemC 0 [3] rfl).2.2⟩

/-- C6 counterexample: over a subscription that is closed from the start —
`next()` yields nothing at every index — the claim predicts the stream is
terminal, i.e. has no cell at some index; instead the `to_stream` loop has
no exit at all: it yields the element `None` at every index, so the stream
never ends. -/
theorem consumer_stream_terminal_counterexample :
    ¬ ∃ n, toStreamNth deserOkC sourceClosedC n = none := by
  intro hc
  obtain ⟨n, hn⟩ := hc
  simp only [toStreamNth] at hn
  exact Option.noConfusion hn

/-- C6 amended: a receive with no message yields the element `None` and the
stream continues; a transport receive failure yields
`Some(Err(ConsumerError))` for that iteration and the stream continues; and
the stream never terminates — every index has a cell, a closed subscription
included. -/
theorem consumer_stream_never_ends {T DError : Type}
    (deserializer : Bytes → Except DError T) (source : Nat → InnerItem)
    (n : Nat) :
    (source n = .noMessage →
      toStreamNth deserializer source n = some (none, [.receivedItem]))
    ∧ (∀ e, source n = .errItem e →
      toStreamNth deserializer source n
        = some (some (.error (.ConsumerError e)), [.receivedItem]))
    ∧ (toStreamNth deserializer source n).isSome := by
  refine ⟨fun hno => ?_, fun e he => ?_, rfl⟩
  · simp only [toStreamNth, hno, streamIter]
  · simp only [toStreamNth, he, streamIter]

/-- C6 witness: the closed subscription yields `None` forever and a failing
receive yields a `ConsumerError` element, the stream continuing in both
cases. -/
theorem consumer_stream_never_ends_witness :
    toStreamNth deserOkC sourceClosedC 0 = some (none, [.receivedItem])
    ∧ toStreamNth deserOkC sourceErrC 0
      = some (some (.error (.ConsumerError ⟨6⟩)), [.receivedItem])
    ∧ (toStreamNth deserOkC sourceClosedC 5).isSome :=
  ⟨(consumer_stream_never_ends deserOkC sourceClosedC 0).1 rfl,
    (consumer_stream_never_ends deserOkC sourceErrC 0).2.1 ⟨6⟩ rfl,
    (consumer_stream_never_ends deserOkC sourceClosedC 5).2.2⟩

/-- C7: `publish` serializes the value with the route's serializer — which
is an infallible `Fn(T) -> Vec<u8>`, so the `SerializationError` clause
holds vacuously — and sends the payload with delivery_mode 2 (persistent)
to the descriptor's destination; it returns `Ok(())` exactly when the send
and its awaited publisher confirmation both succeed, the confirmation
preceding the return, and a broker or network failure at either await is
returned as the transport error. -/
theorem producer_publish_durable_confirm {T : Type}
    (info : AmqpQueueInformation) (serializer : T → Bytes)
    (so co : Except LapinError Unit) (value : T) :
    (so = .ok () → co = .ok () →
      lapinPublish info serializer so co value
        = (.ok (), [.sent info.exchange info.routing_key (serializer value) 2,
            .confirmed]))
    ∧ (∀ e, so = .error e →
      lapinPublish info serializer so co value
        = (.error e, [.sent info.exchange info.routing_key (serializer value) 2]))
    ∧ (∀ e, so = .ok () → co = .error e →
      lapinPublish info serializer so co value
        = (.error e, [.sent info.exchange info.routing_key (serializer value) 2])) := by
  refine ⟨fun hso hco => ?_, fun e hso => ?_, fun e hso hco => ?_⟩
  · simp only [lapinPublish, hso, hco]
  · simp only [lapinPublish, hso]
  · simp only [lapinPublish, hso, hco]

/-- C7 witness: a confirmed publish and the two transport failure modes,
evaluated on a concrete route. -/
theorem producer_publish_durable_confirm_witness :
    lapinPublish infoC serC (.ok ()) (.ok ()) 4
      = (.ok (), [.sent "ex" "rk" [4] 2, .confirmed])
    ∧ lapinPublish infoC serC (.error ⟨3⟩) (.ok ()) 4
      = (.error ⟨3⟩, [.sent "ex" "rk" [4] 2])
    ∧ lapinPublish infoC serC (.ok ()) (.error ⟨9⟩) 4
      = (.error ⟨9⟩, [.sent "ex" "rk" [4] 2]) :=
  ⟨(producer_publish_durable_confirm infoC serC (.ok ()) (.ok ()) 4).1 rfl rfl,
    (producer_publish_durable_confirm infoC serC (.error ⟨3⟩) (.ok ()) 4).2.1 ⟨3⟩ rfl,
    (producer_publish_durable_confirm infoC serC (.ok ()) (.error ⟨9⟩) 4).2.2 ⟨9⟩ rfl rfl⟩

end EasyMq
